import Mathlib

/-!
# Verification of the report-generation workflow engine

Shallow embedding of the client-side report workflow of
`azure-reports-app` (frontend services and dashboard transport helpers),
together with theorems checking the natural-language specification
against the code.

Embedded sources:
* `src/frontend/src/services/reportsService.js` —
  `extractDashboardMetrics`, `validateReportConfig`, `pollReportStatus`
* `src/frontend/src/components/dashboard/EnhancedDashboard.jsx` —
  `loadSpecializedStats`, `fetchWithAuth`, `handleApiResponse`,
  `fetchWithRetry`
* `src/frontend/src/services/api.js` (unnamed/part_001) —
  `apiService.createReport`
-/

namespace AzureReports

/-- A JavaScript value, as far as the embedded code distinguishes them:
`undefined`, `null`, booleans, (integer) numbers, strings and objects
(association lists of fields). -/
inductive JsVal where
  | undefined : JsVal
  | null : JsVal
  | bool : Bool → JsVal
  | num : Int → JsVal
  | str : String → JsVal
  | obj : List (String × JsVal) → JsVal
deriving Repr, BEq

/-- JavaScript truthiness: `undefined`, `null`, `false`, `0` and `""` are
falsy, everything else (including every object) is truthy. -/
def jsTruthy : JsVal → Bool
  | .undefined => false
  | .null => false
  | .bool b => b
  | .num n => n != 0
  | .str s => s.length != 0
  | .obj _ => true

/-- The JavaScript `a || b` operator: `a` when `a` is truthy, else `b`. -/
def jsOr (a b : JsVal) : JsVal :=
  if jsTruthy a then a else b

/-- JavaScript property access `v.k`, which throws a `TypeError` when the
base is `null` or `undefined`, yields the field (or `undefined` for a
missing field) on an object, and yields `undefined` on every other
primitive (which is boxed, so access does not throw). -/
def jsGetE : JsVal → String → Except String JsVal
  | .undefined, _ => .error "TypeError"
  | .null, _ => .error "TypeError"
  | .obj fields, k => .ok ((fields.lookup k).getD .undefined)
  | _, _ => .ok .undefined

/-- Look a field up in an object result, for stating theorems about the
shape `extractDashboardMetrics` returns. -/
def jsField (v : JsVal) (k : String) : Option JsVal :=
  match v with
  | .obj fields => fields.lookup k
  | _ => none

/-- `reportsService.extractDashboardMetrics(analysisData, reportType)`
(reportsService.js:378-415): reads `analysisData.basic_metrics || {}`
and builds the per-type dashboard metrics object, defaulting each field
with `||`. Property accesses are in `Except` because in JavaScript they
throw exactly when the base is `null`/`undefined`. -/
def extractDashboardMetrics (analysisData : JsVal) (reportType : String) :
    Except String JsVal := do
  let bm ← jsGetE analysisData "basic_metrics"
  let basic := jsOr bm (.obj [])
  match reportType with
  | "security" => do
      let ta ← jsGetE basic "total_security_actions"
      let ci ← jsGetE basic "high_impact_actions"
      let ss ← jsGetE analysisData "security_score"
      let wh ← jsGetE basic "estimated_working_hours"
      let rl ← jsGetE basic "risk_level"
      pure (.obj
        [("total_actions", jsOr ta (.num 0)),
         ("critical_issues", jsOr ci (.num 0)),
         ("security_score", jsOr ss (.num 0)),
         ("working_hours", jsOr wh (.num 0)),
         ("risk_level", jsOr rl (.str "Unknown"))])
  | "performance" => do
      let ta ← jsGetE basic "total_performance_actions"
      let co ← jsGetE basic "high_impact_optimizations"
      let ps ← jsGetE analysisData "performance_score"
      let op ← jsGetE basic "estimated_performance_improvement"
      let wh ← jsGetE basic "estimated_working_hours"
      pure (.obj
        [("total_actions", jsOr ta (.num 0)),
         ("critical_optimizations", jsOr co (.num 0)),
         ("performance_score", jsOr ps (.num 100)),
         ("optimization_potential", jsOr op (.num 0)),
         ("working_hours", jsOr wh (.num 0))])
  | "cost" => do
      let ta ← jsGetE basic "total_cost_actions"
      let ms ← jsGetE basic "estimated_monthly_savings"
      let asav ← jsGetE basic "estimated_annual_savings"
      let wh ← jsGetE basic "estimated_working_hours"
      let os ← jsGetE analysisData "optimization_score"
      pure (.obj
        [("total_actions", jsOr ta (.num 0)),
         ("monthly_savings", jsOr ms (.num 0)),
         ("annual_savings", jsOr asav (.num 0)),
         ("working_hours", jsOr wh (.num 0)),
         ("optimization_score", jsOr os (.num 100))])
  | _ => do
      let ta ← jsGetE basic "total_actions"
      let wh ← jsGetE basic "estimated_working_hours"
      pure (.obj
        [("total_actions", jsOr ta (.num 0)),
         ("working_hours", jsOr wh (.num 0))])

/-- `basic = analysisData.basic_metrics || {}` for an object payload,
as read by `extractDashboardMetrics` (reportsService.js:379). -/
def basicOf (fs : List (String × JsVal)) : JsVal :=
  jsOr ((fs.lookup "basic_metrics").getD .undefined) (.obj [])

/-- Total JavaScript property access for places where the base is known
to be an object (`undefined` for a missing field). -/
def jsGet (v : JsVal) (k : String) : JsVal :=
  match v with
  | .obj fields => (fields.lookup k).getD .undefined
  | _ => .undefined

/-- JavaScript `String(v)`, as used when an error payload is turned into
a message. -/
def jsDisplayString : JsVal → String
  | .str s => s
  | .num n => toString n
  | .bool b => toString b
  | .null => "null"
  | .undefined => "undefined"
  | .obj _ => "[object Object]"

/-- `String.prototype.trim`: strip leading and trailing whitespace.
Implemented structurally over the character list so that concrete
instances evaluate inside the kernel. -/
def strTrim (s : String) : String :=
  String.mk (((s.data.dropWhile Char.isWhitespace).reverse.dropWhile
    Char.isWhitespace).reverse)

/-- JavaScript `v.trim()`: defined on strings, a `TypeError` on anything
else. -/
def jsTrimE : JsVal → Except String String
  | .str s => .ok (strTrim s)
  | _ => .error "TypeError"

/-! ## Validation Gate (`reportsService.validateReportConfig`) -/

/-- The slice of a report configuration read by
`validateReportConfig(config)` (reportsService.js:336-355): `config.title`,
`config.type` and `config.csvFileId`, each an arbitrary JavaScript value. -/
structure ReportConfig where
  title : JsVal
  type : JsVal
  csvFileId : JsVal

/-- `{ isValid, errors }` as returned by `validateReportConfig`. -/
structure ValidationResult where
  isValid : Bool
  errors : List String
deriving Repr, DecidableEq

def titleLengthError : String := "El título debe tener al menos 3 caracteres"

def typeInvalidError : String := "Tipo de reporte inválido"

def csvFileError : String := "Debe seleccionar un archivo CSV"

/-- JavaScript `Array.prototype.includes` of a list of string literals
applied to an arbitrary value (strict equality). -/
def jsIncludes (xs : List String) (v : JsVal) : Bool :=
  match v with
  | .str s => xs.contains s
  | _ => false

/-- The title rule `!config.title || config.title.trim().length < 3`
(reportsService.js:339), in `Except` because in JavaScript `.trim()`
throws on a truthy non-string title. -/
def titleRuleViolated (title : JsVal) : Except String Bool :=
  if jsTruthy title = false then pure true
  else do
    let t ← jsTrimE title
    pure (decide (t.length < 3))

/-- `reportsService.validateReportConfig(config)`
(reportsService.js:336-355). The three rules push their errors into one
list in source order; the type and file checks cannot throw. -/
def validateReportConfig (config : ReportConfig) : Except String ValidationResult := do
  let titleBad ← titleRuleViolated config.title
  let typeBad : Bool :=
    !(jsTruthy config.type) ||
      !(jsIncludes ["comprehensive", "security", "performance", "cost"] config.type)
  let csvBad : Bool := !(jsTruthy config.csvFileId)
  let errors :=
    (if titleBad then [titleLengthError] else []) ++
    (if typeBad then [typeInvalidError] else []) ++
    (if csvBad then [csvFileError] else [])
  pure { isValid := errors.isEmpty, errors := errors }

/-! ## Report Lifecycle Controller (`reportsService.pollReportStatus`) -/

/-- The slice of a report resource the polling loop reads: its `status`
and its optional `error_message`. -/
structure Report where
  status : String
  error_message : Option String
deriving Repr, DecidableEq

/-- How one call of `pollReportStatus` settles. -/
inductive PollOutcome where
  | resolved : Report → PollOutcome
  | generationFailed : String → PollOutcome
  | pollingTimeout : PollOutcome
  | transportError : String → PollOutcome
deriving Repr, DecidableEq

/-- `report.error_message || 'Report generation failed'`: the empty
string is falsy, so it also falls back to the default. -/
def errorMessageOrDefault (em : Option String) : String :=
  match em with
  | some m => if m.length = 0 then "Report generation failed" else m
  | none => "Report generation failed"

/-- The `checkStatus` loop of `reportsService.pollReportStatus`
(reportsService.js:253-283), with the fetch of poll number `attempts`
given by `fetchResult attempts`. The source guards re-scheduling with
`attempts >= maxAttempts`; here `remaining` stands for
`maxAttempts - attempts`, so that guard is `remaining = 0` and the
recursion is structural. Returns the outcome, the total number of report
fetches issued, and the list of reports passed to `onStatusUpdate` in
order (a poll whose fetch throws reaches no callback). -/
def pollReportStatusLoop (fetchResult : Nat → Except String Report) :
    Nat → Nat → PollOutcome × Nat × List Report
  | attempts, remaining =>
    match fetchResult attempts with
    | .error e => (.transportError e, attempts + 1, [])
    | .ok report =>
      if report.status = "completed" then
        (.resolved report, attempts + 1, [report])
      else if report.status = "failed" then
        (.generationFailed (errorMessageOrDefault report.error_message),
          attempts + 1, [report])
      else
        match remaining with
        | 0 => (.pollingTimeout, attempts + 1, [report])
        | r + 1 =>
          let rest := pollReportStatusLoop fetchResult (attempts + 1) r
          (rest.1, rest.2.1, report :: rest.2.2)

/-- `reportsService.pollReportStatus(reportId, onStatusUpdate, maxAttempts)`
(reportsService.js:253-283): starts the loop with `attempts = 0`. -/
def pollReportStatus (fetchResult : Nat → Except String Report)
    (maxAttempts : Nat := 60) : PollOutcome × Nat × List Report :=
  pollReportStatusLoop fetchResult 0 maxAttempts

/-! ## Metrics batch fetch (`loadSpecializedStats`, EnhancedDashboard.jsx) -/

/-- Modelled from the spec: `reportsService.getAnalyticsForType(type)` is
called by `loadSpecializedStats` (EnhancedDashboard.jsx:45-60) but is not
defined in the sources; per §4.4 the batch variant "fetches and
normalizes stats for multiple report types", so it is modelled as
fetching the raw analytics payload for the type and normalizing it with
the Metrics Normalizer. `fetchRaw t` is the outcome of the network fetch
for type `t`. -/
def getAnalyticsForType (fetchRaw : String → Except String JsVal) (t : String) :
    Except String JsVal := do
  let raw ← fetchRaw t
  extractDashboardMetrics raw t

/-- `loadSpecializedStats` (EnhancedDashboard.jsx:45-60): iterates over
`['security', 'performance', 'cost']`, storing the fetched stats for each
type and `null` (here `none`) for a type whose fetch threw — the
`try`/`catch` is inside the loop, so one failure aborts nothing. -/
def loadSpecializedStats (fetchRaw : String → Except String JsVal) :
    List (String × Option JsVal) :=
  ["security", "performance", "cost"].map (fun t =>
    match getAnalyticsForType fetchRaw t with
    | .ok v => (t, some v)
    | .error _ => (t, none))

/-! ## Transport Client (EnhancedDashboard.jsx helpers) -/

/-- The browser state the transport helpers read and write: the current
`window.location.href` and the four token slots
(`localStorage`/`sessionStorage` × `access_token`/`refresh_token`). -/
structure NavState where
  locationHref : String
  localAccessToken : Option String
  sessionAccessToken : Option String
  localRefreshToken : Option String
  sessionRefreshToken : Option String
deriving Repr, DecidableEq

/-- An HTTP response as the helpers see it: the numeric status and the
JSON body (`none` when `response.json()` rejects). -/
structure HttpResponse where
  status : Nat
  body : Option JsVal
deriving Repr

/-- `response.ok`: status in the range 200-299. -/
def respOk (r : HttpResponse) : Bool :=
  200 ≤ r.status && r.status < 300

/-- The common 401 side effect of `fetchWithAuth` and `handleApiResponse`
(EnhancedDashboard.jsx:956-963 and 1019-1025): remove both `access_token`
slots and both `refresh_token` slots, then set
`window.location.href = '/'`. -/
def clearSessionAndRedirect (st : NavState) : NavState :=
  { st with
    localAccessToken := none
    sessionAccessToken := none
    localRefreshToken := none
    sessionRefreshToken := none
    locationHref := "/" }

/-- `fetchWithAuth(url, options)` (EnhancedDashboard.jsx:936-972), with
the underlying `fetch` outcome passed in as `fetchResult` (`.error` when
`fetch` itself rejects). On a 401 response it clears all token slots,
navigates to `'/'` and throws `'Sesión expirada'`; every other response
is returned untouched. Returns the result together with the browser
state after the call. -/
def fetchWithAuth (st : NavState) (fetchResult : Except String HttpResponse) :
    Except String HttpResponse × NavState :=
  match fetchResult with
  | .error e => (.error e, st)
  | .ok response =>
    if response.status = 401 then
      (.error "Sesión expirada", clearSessionAndRedirect st)
    else
      (.ok response, st)

/-- `handleApiResponse(response)` (EnhancedDashboard.jsx:1010-1051): on a
2xx response returns the parsed body (an unparseable 2xx body rejects);
on a non-2xx response parses the error body (falling back to a synthetic
`detail` object) and throws the per-status message, with the 401 case
also clearing the session and navigating to `'/'`. -/
def handleApiResponse (st : NavState) (response : HttpResponse) :
    Except String JsVal × NavState :=
  if respOk response then
    match response.body with
    | some v => (.ok v, st)
    | none => (.error "SyntaxError", st)
  else
    let error := response.body.getD (.obj [("detail", .str "Error de conexión con el servidor")])
    match response.status with
    | 401 => (.error "Sesión expirada. Por favor, inicia sesión nuevamente.",
        clearSessionAndRedirect st)
    | 403 => (.error "No tienes permisos para realizar esta acción.", st)
    | 404 => (.error "Recurso no encontrado.", st)
    | 413 => (.error "El archivo es demasiado grande. Máximo 50MB.", st)
    | 422 => (.error "Datos inválidos. Verifica la información enviada.", st)
    | 429 => (.error "Demasiadas solicitudes. Intenta nuevamente en unos minutos.", st)
    | 500 => (.error "Error interno del servidor. Intenta nuevamente.", st)
    | _ => (.error (jsDisplayString (jsOr (jsGet error "detail")
        (jsOr (jsGet error "message") (.str "Error desconocido")))), st)

/-- `API_CONFIG.RETRY.ATTEMPTS` (EnhancedDashboard.jsx:929). -/
def RETRY_ATTEMPTS : Nat := 3

/-- `fetchWithRetry(url, options, retryCount)`
(EnhancedDashboard.jsx:1054-1074), with the `fetch` outcome of attempt
`k` given by `fetchResult k`. The `try` block runs `fetch` and then
`handleApiResponse`, so the `catch` sees both network errors and every
error `handleApiResponse` throws; the source retries while
`retryCount < RETRY.ATTEMPTS` and here `remaining` stands for
`RETRY.ATTEMPTS - retryCount`, so that guard is `remaining ≠ 0`. The
exponential backoff delays are real time and are not modelled. Returns
the result, the final browser state, and the total number of fetches
performed. -/
def fetchWithRetryLoop (fetchResult : Nat → Except String HttpResponse) :
    NavState → Nat → Nat → Except String JsVal × NavState × Nat
  | st, attempt, remaining =>
    let step : Except String JsVal × NavState :=
      match fetchResult attempt with
      | .error e => (.error e, st)
      | .ok response => handleApiResponse st response
    match step with
    | (.ok v, st') => (.ok v, st', attempt + 1)
    | (.error e, st') =>
      match remaining with
      | 0 => (.error e, st', attempt + 1)
      | r + 1 => fetchWithRetryLoop fetchResult st' (attempt + 1) r

/-- `fetchWithRetry` entered at `retryCount = 0`. -/
def fetchWithRetry (fetchResult : Nat → Except String HttpResponse)
    (st : NavState) : Except String JsVal × NavState × Nat :=
  fetchWithRetryLoop fetchResult st 0 RETRY_ATTEMPTS

/-! ## Report submission body (`apiService.createReport`, api.js) -/

/-- The object literal `apiService.createReport(reportData)` passes to
`JSON.stringify` (api.js:51-75, src/unnamed/part_001). The source
evaluates the fallback configuration literal only when
`reportData.configuration` is falsy, which the inner `do` mirrors;
property accesses are in `Except` because they throw iff `reportData`
is `null`/`undefined`. -/
def createReportBody (reportData : JsVal) : Except String JsVal := do
  let title ← jsGetE reportData "title"
  let description ← jsGetE reportData "description"
  let rtype ← jsGetE reportData "type"
  let rtypeAlt ← jsGetE reportData "report_type"
  let csvFileId ← jsGetE reportData "csvFileId"
  let csvAlt ← jsGetE reportData "csv_file"
  let config ← jsGetE reportData "configuration"
  let configVal ←
    if jsTruthy config then pure config
    else do
      let ig ← jsGetE reportData "includeGraphics"
      let idt ← jsGetE reportData "includeDetailedTables"
      let ir ← jsGetE reportData "includeRecommendations"
      pure (JsVal.obj
        [("include_graphics", jsOr ig (.bool true)),
         ("include_detailed_tables", jsOr idt (.bool true)),
         ("include_recommendations", jsOr ir (.bool true))])
  pure (.obj
    [("title", title),
     ("description", jsOr description (.str "")),
     ("report_type", jsOr rtype rtypeAlt),
     ("csv_file", jsOr csvFileId csvAlt),
     ("configuration", configVal)])

end AzureReports

namespace AzureReports

/-! ## Polling lemmas -/

/-- If every poll sees a non-terminal, non-error report, the loop ends in
`pollingTimeout` after `remaining + 1` further fetches. -/
theorem pollReportStatusLoop_nonterminal
    (fetchResult : Nat → Except String Report)
    (h : ∀ k, ∃ r, fetchResult k = .ok r ∧
      r.status ≠ "completed" ∧ r.status ≠ "failed") :
    ∀ remaining attempts,
      (pollReportStatusLoop fetchResult attempts remaining).1 = .pollingTimeout ∧
      (pollReportStatusLoop fetchResult attempts remaining).2.1 =
        attempts + remaining + 1 := by
  intro remaining
  induction remaining with
  | zero =>
    intro attempts
    obtain ⟨r, hr, hc, hf⟩ := h attempts
    unfold pollReportStatusLoop
    rw [hr]
    simp [hc, hf]
  | succ n ih =>
    intro attempts
    obtain ⟨r, hr, hc, hf⟩ := h attempts
    obtain ⟨ih1, ih2⟩ := ih (attempts + 1)
    unfold pollReportStatusLoop
    rw [hr]
    simp [hc, hf, ih1, ih2]
    omega

/-- If every poll sees status `"cancelled"`, the loop invokes the callback
on every poll and ends in `pollingTimeout` once the attempt bound is
exhausted. -/
theorem pollReportStatusLoop_cancelled
    (fetchResult : Nat → Except String Report) (rep : Nat → Report)
    (h : ∀ k, fetchResult k = .ok (rep k) ∧ (rep k).status = "cancelled") :
    ∀ remaining attempts,
      pollReportStatusLoop fetchResult attempts remaining =
        (.pollingTimeout, attempts + remaining + 1,
          (List.range (remaining + 1)).map (fun i => rep (attempts + i))) := by
  intro remaining
  induction remaining with
  | zero =>
    intro attempts
    obtain ⟨hr, hs⟩ := h attempts
    unfold pollReportStatusLoop
    rw [hr]
    simp [hs, List.range_succ]
  | succ n ih =>
    intro attempts
    obtain ⟨hr, hs⟩ := h attempts
    have hlist : (List.range (n + 1 + 1)).map (fun i => rep (attempts + i)) =
        rep attempts :: (List.range (n + 1)).map (fun i => rep (attempts + 1 + i)) := by
      rw [List.range_succ_eq_map, List.map_cons, List.map_map]
      congr 1
      apply List.map_congr_left
      intro j _
      simp only [Function.comp_apply]
      congr 1
      omega
    unfold pollReportStatusLoop
    rw [hr]
    simp [hs, ih (attempts + 1), hlist]
    all_goals omega

/-- C1 (counterexample): with a poll sequence that stays `processing`
forever and `maxAttempts = 60`, one call of `pollReportStatus` rejects
with the polling-timeout error only after issuing 61 report fetches, not
the claimed 60: the source increments `attempts` only after a
non-terminal poll and tests `attempts >= maxAttempts` on the next poll,
so the fetch that observes the bound is fetch number `maxAttempts + 1`. -/
theorem pollReportStatus_maxAttempts_fetch_count_cex :
    (pollReportStatus (fun _ => .ok { status := "processing", error_message := none }) 60).1 =
      .pollingTimeout ∧
    (pollReportStatus (fun _ => .ok { status := "processing", error_message := none }) 60).2.1 =
      61 ∧
    (61 : Nat) ≠ 60 :=
  ⟨by decide, by decide, by decide⟩

/-- C1 (amended): for every poll sequence in which the report status is
never `completed` and never `failed`, `pollReportStatus` with
`maxAttempts = 60` rejects with the polling-timeout error after exactly
`maxAttempts + 1 = 61` report fetches have been issued — not 60. -/
theorem pollReportStatus_timeout_after_sixty_one
    (fetchResult : Nat → Except String Report)
    (h : ∀ k, ∃ r, fetchResult k = .ok r ∧
      r.status ≠ "completed" ∧ r.status ≠ "failed") :
    (pollReportStatus fetchResult 60).1 = .pollingTimeout ∧
    (pollReportStatus fetchResult 60).2.1 = 61 := by
  simpa [pollReportStatus] using
    pollReportStatusLoop_nonterminal fetchResult h 60 0

/-- Witness for C1 (amended) at the constant `analyzing` poll sequence. -/
theorem pollReportStatus_timeout_after_sixty_one_witness :
    (pollReportStatus (fun _ => .ok { status := "analyzing", error_message := none }) 60).1 =
      .pollingTimeout ∧
    (pollReportStatus (fun _ => .ok { status := "analyzing", error_message := none }) 60).2.1 =
      61 :=
  pollReportStatus_timeout_after_sixty_one _
    (fun _ => ⟨{ status := "analyzing", error_message := none }, rfl, by decide, by decide⟩)

/-- C10: when every poll reports status `cancelled`, `pollReportStatus`
does not stop at the first observation: it passes the report to the
status-update callback on every poll (the third component lists one
callback invocation per poll) and keeps polling until the attempt bound
is exhausted, then rejects with the polling-timeout error — only
`completed` and `failed` are terminal for the loop. -/
theorem pollReportStatus_cancelled_polls_until_timeout
    (fetchResult : Nat → Except String Report) (rep : Nat → Report)
    (maxAttempts : Nat)
    (h : ∀ k, fetchResult k = .ok (rep k) ∧ (rep k).status = "cancelled") :
    pollReportStatus fetchResult maxAttempts =
      (.pollingTimeout, maxAttempts + 1,
        (List.range (maxAttempts + 1)).map (fun i => rep i)) := by
  simpa [pollReportStatus] using
    pollReportStatusLoop_cancelled fetchResult rep h maxAttempts 0

/-- Witness for C10 at the constant `cancelled` poll sequence with
`maxAttempts = 2`: three polls, three callback invocations, timeout. -/
theorem pollReportStatus_cancelled_polls_until_timeout_witness :
    pollReportStatus (fun _ => .ok { status := "cancelled", error_message := none }) 2 =
      (.pollingTimeout, 3,
        (List.range 3).map (fun _ => { status := "cancelled", error_message := none })) :=
  pollReportStatus_cancelled_polls_until_timeout _
    (fun _ => { status := "cancelled", error_message := none }) 2 (fun _ => ⟨rfl, rfl⟩)

/-! ## Metrics Normalizer lemmas -/

/-- Property access on `basic = bm || {}` never throws: the fallback `{}`
is an object and a truthy `bm` is never `null`/`undefined`. -/
theorem jsGetE_truthy_or_obj (bm : JsVal) (fs0 : List (String × JsVal)) (k : String) :
    ∃ w, jsGetE (jsOr bm (.obj fs0)) k = .ok w := by
  unfold jsOr
  split
  case isTrue h =>
    cases bm with
    | undefined => simp [jsTruthy] at h
    | null => simp [jsTruthy] at h
    | bool b => exact ⟨_, rfl⟩
    | num n => exact ⟨_, rfl⟩
    | str s => exact ⟨_, rfl⟩
    | obj fs => exact ⟨_, rfl⟩
  case isFalse h => exact ⟨_, rfl⟩

/-- `Except` bind on a success reduces. -/
theorem exceptOkBind {α β ε : Type} (a : α) (f : α → Except ε β) :
    (Except.ok a >>= f : Except ε β) = f a := rfl

/-- `Except` map on a success reduces. -/
theorem exceptMapOk {α β ε : Type} (g : α → β) (a : α) :
    (g <$> (Except.ok a : Except ε α) : Except ε β) = .ok (g a) := rfl

/-- `pure` into `Except` is `Except.ok`. -/
theorem exceptPureOk {α ε : Type} (a : α) : (pure a : Except ε α) = .ok a := rfl

/-- `Except` bind on a failure reduces. -/
theorem exceptErrorBind {α β ε : Type} (e : ε) (f : α → Except ε β) :
    ((Except.error e : Except ε α) >>= f : Except ε β) = .error e := rfl

theorem basicOf_def (fs : List (String × JsVal)) :
    basicOf fs = jsOr ((fs.lookup "basic_metrics").getD .undefined) (.obj []) := rfl

/-- Property access on `basic` never throws and agrees with the total
access `jsGet`. -/
theorem jsGetE_basicOf (fs : List (String × JsVal)) (k : String) :
    jsGetE (basicOf fs) k = .ok (jsGet (basicOf fs) k) := by
  unfold basicOf jsOr
  split
  case isTrue h =>
    cases hbm : (fs.lookup "basic_metrics").getD .undefined with
    | undefined => rw [hbm] at h; simp [jsTruthy] at h
    | null => rw [hbm] at h; simp [jsTruthy] at h
    | bool b => rfl
    | num n => rfl
    | str s => rfl
    | obj fs2 => rfl
  case isFalse h => rfl

/-- The exact object `extractDashboardMetrics` returns on an object
payload for `security`. -/
theorem extract_security_obj_eq (fs : List (String × JsVal)) :
    extractDashboardMetrics (.obj fs) "security" =
      .ok (.obj
        [("total_actions", jsOr (jsGet (basicOf fs) "total_security_actions") (.num 0)),
         ("critical_issues", jsOr (jsGet (basicOf fs) "high_impact_actions") (.num 0)),
         ("security_score", jsOr ((fs.lookup "security_score").getD .undefined) (.num 0)),
         ("working_hours", jsOr (jsGet (basicOf fs) "estimated_working_hours") (.num 0)),
         ("risk_level", jsOr (jsGet (basicOf fs) "risk_level") (.str "Unknown"))]) := by
  have h0 : jsGetE (.obj fs) "basic_metrics" =
      .ok ((fs.lookup "basic_metrics").getD .undefined) := rfl
  have h1 : jsGetE (.obj fs) "security_score" =
      .ok ((fs.lookup "security_score").getD .undefined) := rfl
  simp only [extractDashboardMetrics, h0, h1, exceptOkBind, ← basicOf_def,
    jsGetE_basicOf, exceptMapOk, exceptPureOk]

/-- The exact object `extractDashboardMetrics` returns on an object
payload for `performance`. -/
theorem extract_performance_obj_eq (fs : List (String × JsVal)) :
    extractDashboardMetrics (.obj fs) "performance" =
      .ok (.obj
        [("total_actions", jsOr (jsGet (basicOf fs) "total_performance_actions") (.num 0)),
         ("critical_optimizations", jsOr (jsGet (basicOf fs) "high_impact_optimizations") (.num 0)),
         ("performance_score", jsOr ((fs.lookup "performance_score").getD .undefined) (.num 100)),
         ("optimization_potential", jsOr (jsGet (basicOf fs) "estimated_performance_improvement") (.num 0)),
         ("working_hours", jsOr (jsGet (basicOf fs) "estimated_working_hours") (.num 0))]) := by
  have h0 : jsGetE (.obj fs) "basic_metrics" =
      .ok ((fs.lookup "basic_metrics").getD .undefined) := rfl
  have h1 : jsGetE (.obj fs) "performance_score" =
      .ok ((fs.lookup "performance_score").getD .undefined) := rfl
  simp only [extractDashboardMetrics, h0, h1, exceptOkBind, ← basicOf_def,
    jsGetE_basicOf, exceptMapOk, exceptPureOk]

/-- The exact object `extractDashboardMetrics` returns on an object
payload for `cost`. -/
theorem extract_cost_obj_eq (fs : List (String × JsVal)) :
    extractDashboardMetrics (.obj fs) "cost" =
      .ok (.obj
        [("total_actions", jsOr (jsGet (basicOf fs) "total_cost_actions") (.num 0)),
         ("monthly_savings", jsOr (jsGet (basicOf fs) "estimated_monthly_savings") (.num 0)),
         ("annual_savings", jsOr (jsGet (basicOf fs) "estimated_annual_savings") (.num 0)),
         ("working_hours", jsOr (jsGet (basicOf fs) "estimated_working_hours") (.num 0)),
         ("optimization_score", jsOr ((fs.lookup "optimization_score").getD .undefined) (.num 100))]) := by
  have h0 : jsGetE (.obj fs) "basic_metrics" =
      .ok ((fs.lookup "basic_metrics").getD .undefined) := rfl
  have h1 : jsGetE (.obj fs) "optimization_score" =
      .ok ((fs.lookup "optimization_score").getD .undefined) := rfl
  simp only [extractDashboardMetrics, h0, h1, exceptOkBind, ← basicOf_def,
    jsGetE_basicOf, exceptMapOk, exceptPureOk]

/-- C6: `extractDashboardMetrics({}, 'security')` returns exactly the
default metrics object `{ total_actions: 0, critical_issues: 0,
security_score: 0, working_hours: 0, risk_level: 'Unknown' }` and, more
generally, normalization for `security` succeeds — never throws — on
every object payload, however its `basic_metrics` is missing or
malformed. -/
theorem extract_security_empty_defaults_and_total :
    extractDashboardMetrics (.obj []) "security" =
      .ok (.obj
        [("total_actions", .num 0),
         ("critical_issues", .num 0),
         ("security_score", .num 0),
         ("working_hours", .num 0),
         ("risk_level", .str "Unknown")]) ∧
    ∀ fs : List (String × JsVal), ∃ v,
      extractDashboardMetrics (.obj fs) "security" = .ok v :=
  ⟨rfl, fun fs => ⟨_, extract_security_obj_eq fs⟩⟩

/-- C3 (counterexample): on the empty payload the `cost` normalizer
returns `optimization_score = 100`, not the claimed default 0 — the
source defaults with `analysisData.optimization_score || 100`. -/
theorem extract_cost_score_default_cex :
    (extractDashboardMetrics (.obj []) "cost").map
      (fun m => jsField m "optimization_score") = .ok (some (.num 100)) ∧
    JsVal.num 100 ≠ JsVal.num 0 :=
  ⟨rfl, by simp⟩

/-- C3 (amended): when the score field is absent, the normalizer
substitutes 0 for the `security` score but 100 for the `performance`
score and 100 — not 0 — for the `cost` optimization score; in particular
`extractDashboardMetrics(payload, 'cost')` with no `optimization_score`
present returns `optimization_score = 100`. -/
theorem extract_score_defaults :
    (∀ fs : List (String × JsVal), fs.lookup "security_score" = none →
      (extractDashboardMetrics (.obj fs) "security").map
        (fun m => jsField m "security_score") = .ok (some (.num 0))) ∧
    (∀ fs : List (String × JsVal), fs.lookup "performance_score" = none →
      (extractDashboardMetrics (.obj fs) "performance").map
        (fun m => jsField m "performance_score") = .ok (some (.num 100))) ∧
    (∀ fs : List (String × JsVal), fs.lookup "optimization_score" = none →
      (extractDashboardMetrics (.obj fs) "cost").map
        (fun m => jsField m "optimization_score") = .ok (some (.num 100))) := by
  refine ⟨?_, ?_, ?_⟩
  · intro fs h
    rw [extract_security_obj_eq]
    simp [jsField, h, jsOr, jsTruthy, Except.map, List.lookup]
  · intro fs h
    rw [extract_performance_obj_eq]
    simp [jsField, h, jsOr, jsTruthy, Except.map, List.lookup]
  · intro fs h
    rw [extract_cost_obj_eq]
    simp [jsField, h, jsOr, jsTruthy, Except.map, List.lookup]

/-- Witness for C3 (amended) at the empty payload. -/
theorem extract_score_defaults_witness :
    (extractDashboardMetrics (.obj []) "security").map
      (fun m => jsField m "security_score") = .ok (some (.num 0)) ∧
    (extractDashboardMetrics (.obj []) "performance").map
      (fun m => jsField m "performance_score") = .ok (some (.num 100)) ∧
    (extractDashboardMetrics (.obj []) "cost").map
      (fun m => jsField m "optimization_score") = .ok (some (.num 100)) :=
  ⟨extract_score_defaults.1 [] rfl, extract_score_defaults.2.1 [] rfl,
    extract_score_defaults.2.2 [] rfl⟩

/-- C9: a `performance_score` that is present but falsy (in particular
explicitly 0, but also `""` or `null`) is indistinguishable from an
absent one: the normalizer replaces it with the type default 100. -/
theorem extract_performance_falsy_score_defaulted
    (fs : List (String × JsVal)) (v : JsVal)
    (hv : fs.lookup "performance_score" = some v)
    (hfalsy : jsTruthy v = false) :
    (extractDashboardMetrics (.obj fs) "performance").map
      (fun m => jsField m "performance_score") = .ok (some (.num 100)) := by
  rw [extract_performance_obj_eq]
  simp [jsField, hv, jsOr, hfalsy, Except.map, List.lookup]

/-- Witness for C9 at the payload with `performance_score` present and
equal to 0. -/
theorem extract_performance_falsy_score_defaulted_witness :
    (extractDashboardMetrics (.obj [("performance_score", .num 0)]) "performance").map
      (fun m => jsField m "performance_score") = .ok (some (.num 100)) :=
  extract_performance_falsy_score_defaulted [("performance_score", .num 0)]
    (.num 0) rfl rfl

/-- C2 (with `getAnalyticsForType` modelled from the spec): in the batch
metrics fetch over `['security', 'performance', 'cost']`, a failing
`performance` fetch yields a `null` entry only for `performance`; the
`security` and `cost` entries are present, non-null and exactly the
normalized payloads — one type's failure never aborts or nullifies the
sibling types. -/
theorem loadSpecializedStats_isolates_failure
    (fetchRaw : String → Except String JsVal)
    (sfs cfs : List (String × JsVal)) (e : String)
    (hs : fetchRaw "security" = .ok (.obj sfs))
    (hp : fetchRaw "performance" = .error e)
    (hc : fetchRaw "cost" = .ok (.obj cfs)) :
    ∃ sv cv,
      extractDashboardMetrics (.obj sfs) "security" = .ok sv ∧
      extractDashboardMetrics (.obj cfs) "cost" = .ok cv ∧
      loadSpecializedStats fetchRaw =
        [("security", some sv), ("performance", none), ("cost", some cv)] := by
  refine ⟨_, _, extract_security_obj_eq sfs, extract_cost_obj_eq cfs, ?_⟩
  simp [loadSpecializedStats, getAnalyticsForType, hs, hp, hc,
    exceptOkBind, exceptErrorBind, extract_security_obj_eq, extract_cost_obj_eq]

/-- Witness for C2: the `security` and `cost` fetches return `{}` while
the `performance` fetch fails. -/
theorem loadSpecializedStats_isolates_failure_witness :
    ∃ sv cv,
      extractDashboardMetrics (.obj []) "security" = .ok sv ∧
      extractDashboardMetrics (.obj []) "cost" = .ok cv ∧
      loadSpecializedStats
        (fun t => if t = "performance" then .error "HTTP 500" else .ok (.obj [])) =
        [("security", some sv), ("performance", none), ("cost", some cv)] :=
  loadSpecializedStats_isolates_failure _ [] [] "HTTP 500" rfl rfl rfl

/-! ## Validation Gate lemmas -/

/-- A string title whose trim is shorter than 3 characters violates the
title rule (both through the falsy-empty branch and through the trim
branch). -/
theorem titleRuleViolated_str_short (s : String)
    (hlen : (strTrim s).length < 3) :
    titleRuleViolated (.str s) = .ok true := by
  unfold titleRuleViolated
  by_cases h0 : jsTruthy (JsVal.str s) = false
  · simp [h0, exceptPureOk]
  · simp [h0, jsTrimE, exceptOkBind, exceptPureOk, hlen]

/-- Evaluation of the validator on a string title with a short trim. -/
theorem validateReportConfig_str_short_title (s : String) (ty cs : JsVal)
    (hlen : (strTrim s).length < 3) :
    validateReportConfig ⟨.str s, ty, cs⟩ =
      .ok { isValid := false,
            errors := titleLengthError ::
              ((if !(jsTruthy ty) ||
                   !(jsIncludes ["comprehensive", "security", "performance", "cost"] ty)
                 then [typeInvalidError] else []) ++
               (if !(jsTruthy cs) then [csvFileError] else [])) } := by
  unfold validateReportConfig
  rw [show (⟨.str s, ty, cs⟩ : ReportConfig).title = .str s from rfl,
    titleRuleViolated_str_short s hlen]
  simp [exceptOkBind, exceptPureOk]

/-- C7: `validateReportConfig` reports all violated rules at once, not
fail-fast: a trimmed title shorter than 3 characters always yields
`isValid = false` with the title-length error regardless of the other
fields; a missing (falsy) file reference always contributes the
file-reference error to any produced result; and a configuration
violating both rules yields both errors in one result. -/
theorem validateReportConfig_full_error_list :
    (∀ (c : ReportConfig) (s : String), c.title = .str s →
      (strTrim s).length < 3 →
      ∃ r, validateReportConfig c = .ok r ∧ r.isValid = false ∧
        titleLengthError ∈ r.errors) ∧
    (∀ (c : ReportConfig) (r : ValidationResult), jsTruthy c.csvFileId = false →
      validateReportConfig c = .ok r → csvFileError ∈ r.errors) ∧
    (∀ (c : ReportConfig) (s : String), c.title = .str s →
      (strTrim s).length < 3 → jsTruthy c.csvFileId = false →
      ∃ r, validateReportConfig c = .ok r ∧ r.isValid = false ∧
        titleLengthError ∈ r.errors ∧ csvFileError ∈ r.errors) := by
  refine ⟨?_, ?_, ?_⟩
  · intro c s ht hlen
    obtain ⟨t0, ty, cs⟩ := c
    cases ht
    exact ⟨_, validateReportConfig_str_short_title s ty cs hlen, rfl, by simp⟩
  · intro c r hcs hok
    unfold validateReportConfig at hok
    cases htb : titleRuleViolated c.title with
    | error e =>
      rw [htb] at hok
      simp [exceptErrorBind] at hok
    | ok tb =>
      rw [htb] at hok
      simp only [exceptOkBind, exceptPureOk, Except.ok.injEq] at hok
      subst hok
      simp [hcs]
  · intro c s ht hlen hcs
    obtain ⟨t0, ty, cs⟩ := c
    cases ht
    exact ⟨_, validateReportConfig_str_short_title s ty cs hlen, rfl, by simp,
      by simp [hcs]⟩

/-- Witness for C7 at a configuration violating both the title rule and
the file-reference rule. -/
theorem validateReportConfig_full_error_list_witness :
    ∃ r, validateReportConfig ⟨.str "ab", .str "security", .undefined⟩ = .ok r ∧
      r.isValid = false ∧ titleLengthError ∈ r.errors ∧ csvFileError ∈ r.errors :=
  validateReportConfig_full_error_list.2.2 ⟨.str "ab", .str "security", .undefined⟩
    "ab" rfl (by decide) rfl

/-! ## Transport Client lemmas -/

/-- C5 (counterexample): a 401 response does not leave the navigation
state unchanged: starting from `/dashboard`, the transport itself
redirects `window.location.href` to `/`. -/
theorem fetchWithAuth_401_navigation_cex :
    (fetchWithAuth ⟨"/dashboard", some "t", none, some "r", none⟩
      (.ok ⟨401, none⟩)).2.locationHref = "/" ∧
    "/" ≠ "/dashboard" :=
  ⟨rfl, by decide⟩

/-- C5 (amended): on a 401 response the transport layer does signal the
distinguished auth-expired error, but it does not change nothing else:
both `fetchWithAuth` and `handleApiResponse` themselves clear all four
token slots and navigate `window.location.href` to `'/'` — redirection is
performed by the transport component, not left to the presentation
layer. -/
theorem transport_401_auth_expired_and_redirect
    (st : NavState) (resp : HttpResponse) (h : resp.status = 401) :
    fetchWithAuth st (.ok resp) =
      (.error "Sesión expirada", clearSessionAndRedirect st) ∧
    handleApiResponse st resp =
      (.error "Sesión expirada. Por favor, inicia sesión nuevamente.",
        clearSessionAndRedirect st) ∧
    (clearSessionAndRedirect st).locationHref = "/" ∧
    (clearSessionAndRedirect st).localAccessToken = none ∧
    (clearSessionAndRedirect st).sessionAccessToken = none ∧
    (clearSessionAndRedirect st).localRefreshToken = none ∧
    (clearSessionAndRedirect st).sessionRefreshToken = none := by
  obtain ⟨stat, body⟩ := resp
  have h' : stat = 401 := h
  subst h'
  exact ⟨rfl, rfl, rfl, rfl, rfl, rfl, rfl⟩

/-- Witness for C5 (amended) at a concrete browser state and a 401
response. -/
theorem transport_401_auth_expired_and_redirect_witness :
    fetchWithAuth ⟨"/reports", some "a", some "b", some "c", some "d"⟩
      (.ok ⟨401, none⟩) =
      (.error "Sesión expirada",
        clearSessionAndRedirect ⟨"/reports", some "a", some "b", some "c", some "d"⟩) ∧
    handleApiResponse ⟨"/reports", some "a", some "b", some "c", some "d"⟩ ⟨401, none⟩ =
      (.error "Sesión expirada. Por favor, inicia sesión nuevamente.",
        clearSessionAndRedirect ⟨"/reports", some "a", some "b", some "c", some "d"⟩) ∧
    (clearSessionAndRedirect ⟨"/reports", some "a", some "b", some "c", some "d"⟩).locationHref = "/" ∧
    (clearSessionAndRedirect ⟨"/reports", some "a", some "b", some "c", some "d"⟩).localAccessToken = none ∧
    (clearSessionAndRedirect ⟨"/reports", some "a", some "b", some "c", some "d"⟩).sessionAccessToken = none ∧
    (clearSessionAndRedirect ⟨"/reports", some "a", some "b", some "c", some "d"⟩).localRefreshToken = none ∧
    (clearSessionAndRedirect ⟨"/reports", some "a", some "b", some "c", some "d"⟩).sessionRefreshToken = none :=
  transport_401_auth_expired_and_redirect
    ⟨"/reports", some "a", some "b", some "c", some "d"⟩ ⟨401, none⟩ rfl

/-- `handleApiResponse` throws on every non-2xx response. -/
theorem handleApiResponse_not_ok (st : NavState) (resp : HttpResponse)
    (h : respOk resp = false) :
    ∃ e st', handleApiResponse st resp = (.error e, st') := by
  unfold handleApiResponse
  rw [if_neg (by simp [h])]
  split <;> exact ⟨_, _, rfl⟩

/-- If every attempt fails (a network error or any non-2xx status), the
retry loop performs one fetch per attempt until `remaining` runs out and
ends in an error. -/
theorem fetchWithRetryLoop_all_fail
    (fetchResult : Nat → Except String HttpResponse)
    (h : ∀ k, match fetchResult k with
      | .error _ => True
      | .ok resp => respOk resp = false) :
    ∀ remaining st attempt,
      (fetchWithRetryLoop fetchResult st attempt remaining).2.2 =
        attempt + remaining + 1 ∧
      ∃ e, (fetchWithRetryLoop fetchResult st attempt remaining).1 = .error e := by
  intro remaining
  induction remaining with
  | zero =>
    intro st attempt
    unfold fetchWithRetryLoop
    cases hf : fetchResult attempt with
    | error e => simp
    | ok resp =>
      have hh := h attempt
      rw [hf] at hh
      obtain ⟨e, st', hstep⟩ := handleApiResponse_not_ok st resp hh
      dsimp only
      rw [hstep]
      simp
  | succ n ih =>
    intro st attempt
    unfold fetchWithRetryLoop
    cases hf : fetchResult attempt with
    | error e =>
      obtain ⟨ih1, ih2⟩ := ih st (attempt + 1)
      simp [ih1, ih2]
      omega
    | ok resp =>
      have hh := h attempt
      rw [hf] at hh
      obtain ⟨e, st', hstep⟩ := handleApiResponse_not_ok st resp hh
      dsimp only
      rw [hstep]
      obtain ⟨ih1, ih2⟩ := ih st' (attempt + 1)
      simp [ih1, ih2]
      omega

/-- C4 (counterexample): a constant-403 response sequence is retried:
`fetchWithRetry` performs 4 fetches — the initial one plus
`RETRY.ATTEMPTS = 3` backoff retries — not the claimed exactly one,
before surfacing the 403 error, because `handleApiResponse` throws on
every non-2xx status and the `catch` in `fetchWithRetry` retries every
thrown error. -/
theorem fetchWithRetry_403_retried_cex :
    (fetchWithRetry (fun _ => .ok ⟨403, none⟩)
      ⟨"/dash", some "t", none, none, none⟩).2.2 = 4 ∧
    (4 : Nat) ≠ 1 ∧
    (fetchWithRetry (fun _ => .ok ⟨403, none⟩)
      ⟨"/dash", some "t", none, none, none⟩).1 =
      .error "No tienes permisos para realizar esta acción." :=
  ⟨by decide, by decide, rfl⟩

/-- C4 (amended): the retry helper exempts no status: for every response
sequence whose attempts all fail (network errors or any non-2xx status,
including 400, 403, 404, 413 and 422 — not only 429 and 5xx),
`fetchWithRetry` performs exactly `RETRY.ATTEMPTS + 1 = 4` fetches,
retrying each failure with its exponential backoff, and then surfaces
the last error to the caller — a 4xx other than 429 is retried rather
than fetched exactly once. -/
theorem fetchWithRetry_retries_every_failure
    (fetchResult : Nat → Except String HttpResponse) (st : NavState)
    (h : ∀ k, match fetchResult k with
      | .error _ => True
      | .ok resp => respOk resp = false) :
    (fetchWithRetry fetchResult st).2.2 = 4 ∧
    ∃ e, (fetchWithRetry fetchResult st).1 = .error e := by
  have hmain := fetchWithRetryLoop_all_fail fetchResult h RETRY_ATTEMPTS st 0
  simpa [fetchWithRetry, RETRY_ATTEMPTS] using hmain

/-- Witness for C4 (amended) at a constant-404 response sequence. -/
theorem fetchWithRetry_retries_every_failure_witness :
    (fetchWithRetry (fun _ => .ok ⟨404, none⟩)
      ⟨"/x", none, none, none, none⟩).2.2 = 4 ∧
    ∃ e, (fetchWithRetry (fun _ => .ok ⟨404, none⟩)
      ⟨"/x", none, none, none, none⟩).1 = .error e :=
  fetchWithRetry_retries_every_failure _ _ (fun _ => rfl)

/-! ## Report submission lemmas -/

/-- C8: when `reportData` has no `configuration` property, the submission
body built by `apiService.createReport` coerces every inclusion flag with
`|| true`: whatever booleans the caller set — in particular an explicit
`false` — the backend receives `include_graphics`,
`include_detailed_tables` and `include_recommendations` all as `true`, so
a false inclusion flag can never reach the backend through this path. -/
theorem createReport_flags_coerced_true
    (fs : List (String × JsVal)) (bg bt br : Bool)
    (hconf : fs.lookup "configuration" = none)
    (hg : fs.lookup "includeGraphics" = some (.bool bg))
    (ht : fs.lookup "includeDetailedTables" = some (.bool bt))
    (hr : fs.lookup "includeRecommendations" = some (.bool br)) :
    (createReportBody (.obj fs)).map (fun b => jsField b "configuration") =
      .ok (some (.obj
        [("include_graphics", .bool true),
         ("include_detailed_tables", .bool true),
         ("include_recommendations", .bool true)])) := by
  cases bg <;> cases bt <;> cases br <;>
    simp [createReportBody, jsGetE, hconf, hg, ht, hr, jsOr, jsTruthy,
      exceptOkBind, exceptPureOk, jsField, Except.map, List.lookup]

/-- Witness for C8: all three inclusion flags explicitly `false` and no
`configuration` property still produce an all-`true` configuration. -/
theorem createReport_flags_coerced_true_witness :
    (createReportBody (.obj
      [("title", .str "T"),
       ("includeGraphics", .bool false),
       ("includeDetailedTables", .bool false),
       ("includeRecommendations", .bool false)])).map
      (fun b => jsField b "configuration") =
      .ok (some (.obj
        [("include_graphics", .bool true),
         ("include_detailed_tables", .bool true),
         ("include_recommendations", .bool true)])) :=
  createReport_flags_coerced_true
    [("title", .str "T"),
     ("includeGraphics", .bool false),
     ("includeDetailedTables", .bool false),
     ("includeRecommendations", .bool false)]
    false false false rfl rfl rfl rfl

end AzureReports

